import Mathlib

/-!
Verification of the `todo` hyperprocess (src/todo/src/lib.rs): in-memory task
store, HTTP route registrations with method-scoped fallbacks, and the
WebSocket hub handler.  Definitions are a shallow embedding of the Rust
source; externally-provided machinery (the route-resolution algorithm of the
hyperprocess macro, UUID generation) is modelled from the specification where
noted.
-/

/-- Embedding of `TodoItem { id, text, completed }` from src/todo/src/lib.rs. -/
structure TodoItem where
  id : String
  text : String
  completed : Bool
deriving DecidableEq, Repr

/-- Embedding of `TodoState { tasks, ws_channels }`.  `ws_channels : HashSet<u32>`
is modelled as a `Finset ℕ` (membership-only set semantics). -/
structure TodoState where
  tasks : List TodoItem
  ws_channels : Finset ℕ
deriving DecidableEq

/-- Embedding of Rust `str::trim`: drop whitespace from both ends (the
source texts relevant here are ASCII, where `char::is_whitespace` and
`Char.isWhitespace` agree).  Lean's own `String.trim` is avoided only because
its byte-position auxiliaries do not reduce in the kernel. -/
def rustTrim (s : String) : String :=
  String.mk (((s.data.dropWhile Char.isWhitespace).reverse.dropWhile
    Char.isWhitespace).reverse)

/-- Embedding of `TodoState::add_task`.  The freshly generated UUID
(`Uuid::new_v4().to_string()` in the source, external randomness) is passed
in as the parameter `newId`; the rest mirrors the source: trim-empty check,
push a `TodoItem` with `completed = false`, return a copy. -/
def add_task (newId : String) (s : TodoState) (text : String) :
    Except String TodoItem × TodoState :=
  if (rustTrim text).isEmpty then
    (.error "Task text cannot be empty", s)
  else
    let new_task : TodoItem := { id := newId, text := text, completed := false }
    (.ok new_task, { s with tasks := s.tasks ++ [new_task] })

/-- Modelled from the spec: `add(text)` "generates a fresh unique identifier".
The source calls `Uuid::new_v4()` from the external `uuid` crate; we model the
generator by a deterministic function producing a string strictly longer than
every id already in the store, hence distinct from all of them. -/
def freshId (tasks : List TodoItem) : String :=
  String.mk (List.replicate (tasks.foldr (fun t m => max t.id.length m) 0 + 1) 'u')

/-- Embedding of the `self.tasks.iter_mut().find(|t| t.id == task_id)` plus
flip step of `TodoState::toggle_task`: locate the first item with the given
id, negate its `completed` flag in place, and return the updated item together
with the updated list; `none` when no item matches. -/
def toggleList : List TodoItem → String → Option (TodoItem × List TodoItem)
  | [], _ => none
  | t :: ts, tid =>
    if t.id = tid then
      let t' : TodoItem := { t with completed := !t.completed }
      some (t', t' :: ts)
    else
      match toggleList ts tid with
      | none => none
      | some (u, ts') => some (u, t :: ts')

/-- Embedding of `TodoState::toggle_task`: flip the first task whose id
matches and return a copy, or `Err("Task with id '…' not found")`. -/
def toggle_task (s : TodoState) (task_id : String) :
    Except String TodoItem × TodoState :=
  match toggleList s.tasks task_id with
  | some (t', tasks') => (.ok t', { s with tasks := tasks' })
  | none => (.error ("Task with id '" ++ task_id ++ "' not found"), s)

/-- Embedding of `TodoState::get_tasks`: returns a copy of the task list
(the `request` argument is only logged by the source). -/
def get_tasks (s : TodoState) (_request : String) : Except String (List TodoItem) :=
  .ok s.tasks

/-- JSON values, as produced by the external `serde_json::from_str::<Value>`. -/
inductive Json where
  | null : Json
  | bool (b : Bool) : Json
  | num (n : Int) : Json
  | str (s : String) : Json
  | arr (xs : List Json) : Json
  | obj (fields : List (String × Json)) : Json

/-- Embedding of `serde_json::Value::get(key)` on the values the handler
probes: field lookup on an object, `None` on anything else. -/
def Json.getField : Json → String → Option Json
  | .obj fields, key => fields.lookup key
  | _, _ => none

/-- Embedding of `serde_json::Value::as_str()`. -/
def Json.asStr : Json → Option String
  | .str s => some s
  | _ => none

/-- Result of decoding the frame blob, i.e. of `String::from_utf8(blob.bytes)`
followed by `serde_json::from_str::<serde_json::Value>` (both external library
calls): the bytes are not valid UTF-8, or valid UTF-8 but not valid JSON, or a
parsed JSON value.  The handler branches on exactly these three outcomes. -/
inductive BlobDecode where
  | notUtf8 : BlobDecode
  | notJson (s : String) : BlobDecode
  | json (v : Json) : BlobDecode

/-- Embedding of `hyperware_process_lib::http::server::WsMessageType`. -/
inductive WsMessageType where
  | Text | Binary | Ping | Pong | Close
deriving DecidableEq

/-- Serialization of a `TodoItem` into the JSON pushed over the socket. -/
def taskJson (t : TodoItem) : Json :=
  .obj [("id", .str t.id), ("text", .str t.text), ("completed", .bool t.completed)]

/-- Serialization of the task list into the `tasks` field of an envelope. -/
def tasksJson (ts : List TodoItem) : Json :=
  .arr (ts.map taskJson)

/-- Embedding of `TodoState::websocket`.  The fresh UUID for the `add_task`
branch is the parameter `fid` (external randomness, as in `add_task`).  The
outbound `send_ws_push` calls are collected as `(channel, payload)` pairs in
the order they are issued; `println!`/`kiprintln!` logging is dropped. -/
def websocket (fid : String) (s : TodoState) (channel_id : ℕ)
    (message_type : WsMessageType) (blob : BlobDecode) :
    TodoState × List (ℕ × Json) :=
  match message_type with
  | .Text =>
    match blob with
    | .notUtf8 => (s, [])
    | .notJson _ => (s, [])
    | .json j =>
      match (j.getField "action").bind Json.asStr with
      | none => (s, [])
      | some action =>
        if action = "get_tasks" then
          (s, [(channel_id,
                .obj [("type", .str "tasks_overview"), ("tasks", tasksJson s.tasks)])])
        else if action = "add_task" then
          match (j.getField "text").bind Json.asStr with
          | none => (s, [])
          | some text =>
            if !(rustTrim text).isEmpty then
              let new_task : TodoItem := { id := fid, text := text, completed := false }
              let tasks' := s.tasks ++ [new_task]
              ({ s with tasks := tasks' },
               [(channel_id,
                 .obj [("type", .str "task_added"), ("task", taskJson new_task),
                       ("tasks", tasksJson tasks')])])
            else (s, [])
        else if action = "toggle_task" then
          match (j.getField "id").bind Json.asStr with
          | none => (s, [])
          | some id =>
            match toggleList s.tasks id with
            | some (t', tasks') =>
              ({ s with tasks := tasks' },
               [(channel_id,
                 .obj [("type", .str "task_toggled"), ("task", taskJson t'),
                       ("tasks", tasksJson tasks')])])
            | none => (s, [])
        else
          (s, [])
  | .Binary => (s, [])
  | .Ping => (s, [])
  | .Pong => (s, [])
  | .Close => (s, [])

/-- Modelled from the spec: "On connect: register channel id in the
active-connections set."  The registration itself is performed by the
hyperprocess framework, not by code under src/. -/
def onConnect (s : TodoState) (channel_id : ℕ) : TodoState :=
  { s with ws_channels := insert channel_id s.ws_channels }

/-- HTTP methods appearing in the route registrations of the source. -/
inductive Method where
  | GET | POST | PUT | PATCH | DELETE
deriving DecidableEq, Repr

/-- A route table: exact routes keyed by `(method, path)` with a handler name,
method-scoped fallbacks (method but no path), and an optional global
catch-all (no method, no path). -/
structure RouteTable where
  exacts : List (Method × String × String)
  fallbacks : List (Method × String)
  catchAll : Option String

/-- Outcome of route resolution. -/
inductive Resolved where
  | exact (handler : String)
  | fallback (handler : String)
  | catchAll (handler : String)
  | noRouteFound (m : Method) (path : String)
deriving DecidableEq, Repr

/-- Modelled from the spec: the route-resolution algorithm of §4.2 (the
resolver itself lives in the external hyperprocess macro; only the route
registrations appear under src/).  1. exact `(method, path)` match wins;
2. else a method-scoped fallback for the method; 3. else the global
catch-all; 4. else `NoRouteFound(method, path)`. -/
def resolve (rt : RouteTable) (m : Method) (path : String) : Resolved :=
  match rt.exacts.find? (fun e => e.1 == m && e.2.1 == path) with
  | some e => .exact e.2.2
  | none =>
    match rt.fallbacks.find? (fun f => f.1 == m) with
    | some f => .fallback f.2
    | none =>
      match rt.catchAll with
      | some h => .catchAll h
      | none => .noRouteFound m path

/-- The exact `(method, path)` routes registered in the source via
`#[http(method = "...", path = "...")]` attributes. -/
def todoExactRoutes : List (Method × String × String) :=
  [(.GET, "/users", "get_users"),
   (.POST, "/users", "create_user"),
   (.POST, "/users-slow", "create_user_slow"),
   (.GET, "/posts", "get_posts"),
   (.POST, "/api/data", "process_data")]

/-- The method-scoped fallbacks registered in the source via
`#[http(method = "...")]` attributes with no path. -/
def todoFallbacks : List (Method × String) :=
  [(.GET, "handle_api_get_fallback"),
   (.POST, "handle_post_fallback"),
   (.PUT, "handle_put_fallback"),
   (.DELETE, "handle_delete_fallback"),
   (.PATCH, "handle_patch_fallback")]

/-- The route table of the source: no global catch-all handler (registered
with neither method nor path) exists in src/todo/src/lib.rs. -/
def todoRoutes : RouteTable :=
  { exacts := todoExactRoutes, fallbacks := todoFallbacks, catchAll := none }

/-- Embedding of `ApiResponse { status, data, path, method }`. -/
structure ApiResponse where
  status : String
  data : String
  path : Option String
  method : Option String
deriving DecidableEq, Repr

/-- Embedding of `ApiResponse::new`: the request context values returned by
`get_path()` / `get_http_method()` are passed explicitly. -/
def ApiResponse.new (data : String) (path method : Option String) : ApiResponse :=
  { status := "success", data := data, path := path, method := method }

/-- Embedding of `get_users` (`GET /users`). -/
def get_users (path method : Option String) : ApiResponse :=
  ApiResponse.new "List of users" path method

/-- Embedding of `handle_api_get_fallback` (GET, no path): prefix-dispatch on
the request path obtained from `get_path().unwrap_or_default()`. -/
def handle_api_get_fallback (path method : Option String) : ApiResponse :=
  let p := path.getD ""
  if p.startsWith "/api/" then
    ApiResponse.new ("API GET fallback for " ++ p) path method
  else if p.startsWith "/admin/" then
    ApiResponse.new ("Admin GET fallback for " ++ p) path method
  else if p.startsWith "/test/" then
    ApiResponse.new ("Test GET fallback for " ++ p) path method
  else
    ApiResponse.new ("Unexpected GET fallback for " ++ p) path method

/-- Embedding of `handle_put_fallback` (PUT, no path). -/
def handle_put_fallback (path method : Option String) : ApiResponse :=
  let p := path.getD ""
  let m := method.getD ""
  ApiResponse.new ("Catch-all: " ++ m ++ " " ++ p) path method

/-- Embedding of `handle_delete_fallback` (DELETE, no path). -/
def handle_delete_fallback (path method : Option String) : ApiResponse :=
  let p := path.getD ""
  let m := method.getD ""
  ApiResponse.new ("Catch-all: " ++ m ++ " " ++ p) path method

/-- Embedding of `handle_patch_fallback` (PATCH, no path). -/
def handle_patch_fallback (path method : Option String) : ApiResponse :=
  let p := path.getD ""
  let m := method.getD ""
  ApiResponse.new ("Catch-all: " ++ m ++ " " ++ p) path method

/-! ## Helper lemmas -/

theorem id_length_le_foldr_max (tasks : List TodoItem) (t : TodoItem) (ht : t ∈ tasks) :
    t.id.length ≤ tasks.foldr (fun t m => max t.id.length m) 0 := by
  induction tasks with
  | nil => cases ht
  | cons a l ih =>
    rcases List.mem_cons.1 ht with rfl | hmem
    · exact Nat.le_max_left _ _
    · exact le_trans (ih hmem) (Nat.le_max_right _ _)

theorem freshId_length (tasks : List TodoItem) :
    (freshId tasks).length = tasks.foldr (fun t m => max t.id.length m) 0 + 1 := by
  show (String.mk (List.replicate (tasks.foldr (fun t m => max t.id.length m) 0 + 1)
    'u')).length = _
  rw [String.length]
  exact List.length_replicate _ _

theorem freshId_not_mem (tasks : List TodoItem) :
    freshId tasks ∉ tasks.map TodoItem.id := by
  intro h
  rcases List.mem_map.1 h with ⟨t, ht, he⟩
  have hlen : t.id.length ≤ tasks.foldr (fun t m => max t.id.length m) 0 :=
    id_length_le_foldr_max tasks t ht
  rw [he, freshId_length] at hlen
  exact Nat.not_succ_le_self _ hlen

theorem trim_not_empty {text : String} (h : rustTrim text ≠ "") :
    (rustTrim text).isEmpty = false := by
  rcases he : (rustTrim text).isEmpty with _ | _
  · rfl
  · exact absurd ((String.isEmpty_iff (rustTrim text)).1 he) h

theorem trim_empty {text : String} (h : rustTrim text = "") :
    (rustTrim text).isEmpty = true :=
  (String.isEmpty_iff (rustTrim text)).2 h

/-! ## Theorems for the claims -/

/-- Claim C6: for every text with non-empty trim, `add_task` succeeds and
returns a task with a fresh id (the generated id is distinct from every id
already in the store) and `completed = false`; afterwards the list is the old
list with the new task appended at the end, containing it exactly once, with
length increased by one, and the connection set untouched. -/
theorem add_task_appends_fresh (s : TodoState) (text : String) (h : rustTrim text ≠ "") :
    (add_task (freshId s.tasks) s text).1 =
        .ok { id := freshId s.tasks, text := text, completed := false } ∧
    (add_task (freshId s.tasks) s text).2.tasks =
        s.tasks ++ [{ id := freshId s.tasks, text := text, completed := false }] ∧
    freshId s.tasks ∉ s.tasks.map TodoItem.id ∧
    (add_task (freshId s.tasks) s text).2.tasks.count
        { id := freshId s.tasks, text := text, completed := false } = 1 ∧
    (add_task (freshId s.tasks) s text).2.tasks.length = s.tasks.length + 1 ∧
    (add_task (freshId s.tasks) s text).2.ws_channels = s.ws_channels := by
  have hmem : ({ id := freshId s.tasks, text := text, completed := false } : TodoItem)
      ∉ s.tasks := by
    intro hm
    exact freshId_not_mem s.tasks (List.mem_map.2 ⟨_, hm, rfl⟩)
  have hif := trim_not_empty h
  refine ⟨?_, ?_, freshId_not_mem s.tasks, ?_, ?_, ?_⟩
  · simp [add_task, hif]
  · simp [add_task, hif]
  · simp [add_task, hif, List.count_append, List.count_eq_zero.2 hmem]
  · simp [add_task, hif]
  · simp [add_task, hif]

theorem add_task_appends_fresh_witness :
    (rustTrim "buy milk" ≠ "") ∧
    (add_task (freshId (⟨[⟨"t1", "hello", false⟩], {1}⟩ : TodoState).tasks)
        ⟨[⟨"t1", "hello", false⟩], {1}⟩ "buy milk").2.tasks.length =
      (⟨[⟨"t1", "hello", false⟩], {1}⟩ : TodoState).tasks.length + 1 :=
  ⟨by decide, (add_task_appends_fresh ⟨[⟨"t1", "hello", false⟩], {1}⟩ "buy milk"
      (by decide)).2.2.2.2.1⟩

/-- Claim C7: for every text whose trimmed value is empty, `add_task` fails
with the `EmptyText` validation error and leaves the whole state unchanged. -/
theorem add_task_empty_rejected (newId : String) (s : TodoState) (text : String)
    (h : rustTrim text = "") :
    add_task newId s text = (.error "Task text cannot be empty", s) := by
  simp [add_task, trim_empty h]

theorem add_task_empty_rejected_witness :
    (rustTrim "" = "" ∧
      add_task "u" (⟨[⟨"t1", "hello", false⟩], {1}⟩ : TodoState) "" =
        (.error "Task text cannot be empty", ⟨[⟨"t1", "hello", false⟩], {1}⟩)) ∧
    (rustTrim "   " = "" ∧
      add_task "u" (⟨[⟨"t1", "hello", false⟩], {1}⟩ : TodoState) "   " =
        (.error "Task text cannot be empty", ⟨[⟨"t1", "hello", false⟩], {1}⟩)) :=
  ⟨⟨by decide, add_task_empty_rejected "u" _ "" (by decide)⟩,
   ⟨by decide, add_task_empty_rejected "u" _ "   " (by decide)⟩⟩

theorem toggleList_none_iff (l : List TodoItem) (tid : String) :
    toggleList l tid = none ↔ ∀ t ∈ l, t.id ≠ tid := by
  induction l with
  | nil => simp [toggleList]
  | cons a l ih =>
    by_cases ha : a.id = tid
    · simp [toggleList, ha]
    · cases hl : toggleList l tid with
      | none =>
        have hall := ih.1 hl
        simp [toggleList, ha, hl, List.forall_mem_cons]
        exact hall
      | some p =>
        obtain ⟨u, ts'⟩ := p
        have hne : ¬ (∀ t ∈ l, t.id ≠ tid) := fun hall => by
          rw [ih.2 hall] at hl; cases hl
        simp [toggleList, ha, hl, List.forall_mem_cons, hne]

theorem toggleList_flip_back (l : List TodoItem) (tid : String) :
    ∀ (u : TodoItem) (l' : List TodoItem), toggleList l tid = some (u, l') →
      toggleList l' tid = some ({ u with completed := !u.completed }, l) := by
  induction l with
  | nil => intro u l' h; simp [toggleList] at h
  | cons a l ih =>
    intro u l' h
    by_cases ha : a.id = tid
    · obtain ⟨aid, atext, acomp⟩ := a
      subst ha
      simp [toggleList] at h
      obtain ⟨hu, hl'⟩ := h
      rw [← hu, ← hl']
      simp [toggleList, Bool.not_not]
    · cases hl : toggleList l tid with
      | none => simp [toggleList, if_neg ha, hl] at h
      | some p =>
        obtain ⟨u₀, ts'⟩ := p
        simp only [toggleList, if_neg ha, hl, Option.some.injEq, Prod.mk.injEq] at h
        obtain ⟨hu, hl'⟩ := h
        rw [← hu, ← hl']
        simp [toggleList, if_neg ha, ih u₀ ts' hl]

theorem toggleList_exists_flip (l : List TodoItem) (tid : String)
    (h : ∃ t ∈ l, t.id = tid) :
    ∃ t ∈ l, t.id = tid ∧
      ∃ l', toggleList l tid = some ({ t with completed := !t.completed }, l') := by
  induction l with
  | nil => simp at h
  | cons a l ih =>
    by_cases ha : a.id = tid
    · exact ⟨a, List.mem_cons_self a l, ha,
        ⟨{ a with completed := !a.completed } :: l, by simp [toggleList, ha]⟩⟩
    · have h' : ∃ t ∈ l, t.id = tid := by
        rcases h with ⟨t, ht, he⟩
        rcases List.mem_cons.1 ht with rfl | hm
        · exact absurd he ha
        · exact ⟨t, hm, he⟩
      rcases ih h' with ⟨t, ht, he, l', hl'⟩
      exact ⟨t, List.mem_cons_of_mem a ht, he, a :: l', by simp [toggleList, ha, hl']⟩

theorem toggleList_spec (l : List TodoItem) (tid : String) :
    ∀ (u : TodoItem) (l' : List TodoItem), toggleList l tid = some (u, l') →
      ∃ (i : ℕ) (hi : i < l.length),
        (l.get ⟨i, hi⟩).id = tid ∧
        (∀ (j : ℕ) (hj : j < l.length), j < i → (l.get ⟨j, hj⟩).id ≠ tid) ∧
        u = { l.get ⟨i, hi⟩ with completed := !(l.get ⟨i, hi⟩).completed } ∧
        l' = l.set i u := by
  induction l with
  | nil => intro u l' h; simp [toggleList] at h
  | cons a l ih =>
    intro u l' h
    by_cases ha : a.id = tid
    · simp only [toggleList, if_pos ha, Option.some.injEq, Prod.mk.injEq] at h
      obtain ⟨hu, hl'⟩ := h
      refine ⟨0, Nat.succ_pos _, ha, ?_, hu.symm, ?_⟩
      · intro j hj hj0; cases hj0
      · rw [← hl', ← hu]; rfl
    · cases hl : toggleList l tid with
      | none => simp [toggleList, if_neg ha, hl] at h
      | some p =>
        obtain ⟨u₀, ts'⟩ := p
        simp only [toggleList, if_neg ha, hl, Option.some.injEq, Prod.mk.injEq] at h
        obtain ⟨hu, hl'⟩ := h
        rcases ih u₀ ts' hl with ⟨i, hi, hmatch, hmin, hu₀, hts'⟩
        refine ⟨i + 1, Nat.succ_lt_succ hi, hmatch, ?_, ?_, ?_⟩
        · intro j hj hji
          cases j with
          | zero => exact ha
          | succ j' => exact hmin j' (Nat.lt_of_succ_lt_succ hj) (Nat.lt_of_succ_lt_succ hji)
        · rw [← hu]; exact hu₀
        · rw [← hl', hts', ← hu]; rfl

/-- Claim C8: toggling an existing id returns the first matching task with
its `completed` flag negated (id and text intact), and a second toggle of the
same id returns the original task and restores the entire state. -/
theorem toggle_task_involution (s : TodoState) (tid : String)
    (h : ∃ t ∈ s.tasks, t.id = tid) :
    (∃ t ∈ s.tasks, t.id = tid ∧
        (toggle_task s tid).1 = .ok { t with completed := !t.completed } ∧
        (toggle_task (toggle_task s tid).2 tid).1 = .ok t) ∧
    (toggle_task (toggle_task s tid).2 tid).2 = s := by
  rcases toggleList_exists_flip s.tasks tid h with ⟨t, ht, he, l', hl'⟩
  have hback := toggleList_flip_back s.tasks tid _ _ hl'
  have hflip : ({ { t with completed := !t.completed } with
      completed := !(!t.completed) } : TodoItem) = t := by
    obtain ⟨ti, tx, tc⟩ := t
    simp [Bool.not_not]
  refine ⟨⟨t, ht, he, ?_, ?_⟩, ?_⟩
  · simp [toggle_task, hl']
  · simp [toggle_task, hl', hback, hflip]
  · simp [toggle_task, hl', hback]

theorem toggle_task_involution_witness :
    (∃ t ∈ (⟨[⟨"a", "x", false⟩, ⟨"b", "y", true⟩], {3}⟩ : TodoState).tasks, t.id = "b") ∧
    (toggle_task (toggle_task ⟨[⟨"a", "x", false⟩, ⟨"b", "y", true⟩], {3}⟩ "b").2 "b").2 =
      ⟨[⟨"a", "x", false⟩, ⟨"b", "y", true⟩], {3}⟩ :=
  ⟨by decide,
   (toggle_task_involution ⟨[⟨"a", "x", false⟩, ⟨"b", "y", true⟩], {3}⟩ "b" (by decide)).2⟩

/-- Claim C9: toggling an id that matches no task fails with the `NotFound`
error naming that id, and the state is unchanged. -/
theorem toggle_task_not_found (s : TodoState) (tid : String)
    (h : ∀ t ∈ s.tasks, t.id ≠ tid) :
    toggle_task s tid = (.error ("Task with id '" ++ tid ++ "' not found"), s) := by
  simp [toggle_task, (toggleList_none_iff s.tasks tid).2 h]

theorem toggle_task_not_found_witness :
    (∀ t ∈ (⟨[⟨"a", "x", false⟩], {1}⟩ : TodoState).tasks, t.id ≠ "zzz") ∧
    toggle_task ⟨[⟨"a", "x", false⟩], {1}⟩ "zzz" =
      (.error ("Task with id '" ++ "zzz" ++ "' not found"), ⟨[⟨"a", "x", false⟩], {1}⟩) :=
  ⟨by decide, toggle_task_not_found ⟨[⟨"a", "x", false⟩], {1}⟩ "zzz" (by decide)⟩

/-- Claim C10: toggling an existing id changes only the `completed` field of
the first task whose id matches: the result list is the original with that
single position replaced by the same task with `completed` negated (id and
text preserved by the record update), the length is unchanged, every other
position holds the exact original task, and the connection set is
untouched. -/
theorem toggle_task_frame (s : TodoState) (tid : String)
    (h : ∃ t ∈ s.tasks, t.id = tid) :
    ∃ (i : ℕ) (hi : i < s.tasks.length),
      (s.tasks.get ⟨i, hi⟩).id = tid ∧
      (∀ (j : ℕ) (hj : j < s.tasks.length), j < i → (s.tasks.get ⟨j, hj⟩).id ≠ tid) ∧
      (toggle_task s tid).1 =
        .ok { s.tasks.get ⟨i, hi⟩ with completed := !(s.tasks.get ⟨i, hi⟩).completed } ∧
      (toggle_task s tid).2.tasks =
        s.tasks.set i { s.tasks.get ⟨i, hi⟩ with
          completed := !(s.tasks.get ⟨i, hi⟩).completed } ∧
      (toggle_task s tid).2.tasks.length = s.tasks.length ∧
      (∀ j : ℕ, j ≠ i → (toggle_task s tid).2.tasks[j]? = s.tasks[j]?) ∧
      (toggle_task s tid).2.ws_channels = s.ws_channels := by
  obtain ⟨u, l', heq⟩ : ∃ u l', toggleList s.tasks tid = some (u, l') := by
    cases hl : toggleList s.tasks tid with
    | none =>
      rcases h with ⟨t, ht, he⟩
      exact absurd he ((toggleList_none_iff s.tasks tid).1 hl t ht)
    | some p =>
      obtain ⟨u, l'⟩ := p
      exact ⟨u, l', rfl⟩
  rcases toggleList_spec s.tasks tid u l' heq with ⟨i, hi, hmatch, hmin, hu, hl'⟩
  refine ⟨i, hi, hmatch, hmin, ?_, ?_, ?_, ?_, ?_⟩
  · simp [toggle_task, heq, hu]
  · simp [toggle_task, heq, hl', hu]
  · simp [toggle_task, heq, hl', List.length_set]
  · intro j hne
    simp only [toggle_task, heq, hl']
    exact List.getElem?_set_ne (fun he => hne he.symm)
  · simp [toggle_task, heq]

theorem toggle_task_frame_witness :
    (∃ t ∈ (⟨[⟨"p", "one", true⟩, ⟨"q", "two", false⟩], {5}⟩ : TodoState).tasks,
        t.id = "q") ∧
    (toggle_task ⟨[⟨"p", "one", true⟩, ⟨"q", "two", false⟩], {5}⟩ "q").2.tasks.length =
      (⟨[⟨"p", "one", true⟩, ⟨"q", "two", false⟩], {5}⟩ : TodoState).tasks.length := by
  refine ⟨by decide, ?_⟩
  obtain ⟨i, hi, hm, hmin, hok, hset, hlen, hother, hws⟩ :=
    toggle_task_frame ⟨[⟨"p", "one", true⟩, ⟨"q", "two", false⟩], {5}⟩ "q" (by decide)
  exact hlen

/-- Claim C4: every failure path of the websocket text handler is a silent
no-op — bytes that are not UTF-8, strings that are not JSON, JSON without a
string `action` field, an unknown action, an `add_task` whose trimmed text is
empty, and a `toggle_task` whose id matches no task all send zero outbound
frames and leave the task list and connection set unchanged. -/
theorem ws_failures_silent (fid : String) (s : TodoState) (ch : ℕ) :
    (websocket fid s ch .Text .notUtf8 = (s, [])) ∧
    (∀ raw : String, websocket fid s ch .Text (.notJson raw) = (s, [])) ∧
    (∀ j : Json, (j.getField "action").bind Json.asStr = none →
        websocket fid s ch .Text (.json j) = (s, [])) ∧
    (∀ (j : Json) (a : String), (j.getField "action").bind Json.asStr = some a →
        a ≠ "get_tasks" → a ≠ "add_task" → a ≠ "toggle_task" →
        websocket fid s ch .Text (.json j) = (s, [])) ∧
    (∀ (j : Json) (text : String),
        (j.getField "action").bind Json.asStr = some "add_task" →
        (j.getField "text").bind Json.asStr = some text →
        rustTrim text = "" →
        websocket fid s ch .Text (.json j) = (s, [])) ∧
    (∀ (j : Json) (tid : String),
        (j.getField "action").bind Json.asStr = some "toggle_task" →
        (j.getField "id").bind Json.asStr = some tid →
        (∀ t ∈ s.tasks, t.id ≠ tid) →
        websocket fid s ch .Text (.json j) = (s, [])) := by
  refine ⟨rfl, fun raw => rfl, ?_, ?_, ?_, ?_⟩
  · intro j hact
    simp [websocket, hact]
  · intro j a hact h1 h2 h3
    simp [websocket, hact, h1, h2, h3]
  · intro j text hact htext hempty
    simp [websocket, hact, htext, trim_empty hempty]
  · intro j tid hact hid hnone
    simp [websocket, hact, hid, (toggleList_none_iff s.tasks tid).2 hnone]

theorem ws_failures_silent_witness :
    (websocket "u" (⟨[⟨"a", "x", false⟩], {7}⟩ : TodoState) 7 .Text .notUtf8 =
        (⟨[⟨"a", "x", false⟩], {7}⟩, [])) ∧
    (websocket "u" (⟨[⟨"a", "x", false⟩], {7}⟩ : TodoState) 7 .Text
        (.notJson "nonsense") = (⟨[⟨"a", "x", false⟩], {7}⟩, [])) ∧
    (websocket "u" (⟨[⟨"a", "x", false⟩], {7}⟩ : TodoState) 7 .Text
        (.json (Json.num 3)) = (⟨[⟨"a", "x", false⟩], {7}⟩, [])) ∧
    (websocket "u" (⟨[⟨"a", "x", false⟩], {7}⟩ : TodoState) 7 .Text
        (.json (Json.obj [("action", Json.str "frobnicate")])) =
        (⟨[⟨"a", "x", false⟩], {7}⟩, [])) ∧
    (websocket "u" (⟨[⟨"a", "x", false⟩], {7}⟩ : TodoState) 7 .Text
        (.json (Json.obj [("action", Json.str "add_task"), ("text", Json.str "   ")])) =
        (⟨[⟨"a", "x", false⟩], {7}⟩, [])) ∧
    (websocket "u" (⟨[⟨"a", "x", false⟩], {7}⟩ : TodoState) 7 .Text
        (.json (Json.obj [("action", Json.str "toggle_task"), ("id", Json.str "zzz")])) =
        (⟨[⟨"a", "x", false⟩], {7}⟩, [])) := by
  have H := ws_failures_silent "u" ⟨[⟨"a", "x", false⟩], {7}⟩ 7
  exact ⟨H.1, H.2.1 "nonsense",
    H.2.2.1 (Json.num 3) rfl,
    H.2.2.2.1 (Json.obj [("action", Json.str "frobnicate")]) "frobnicate" rfl
      (by decide) (by decide) (by decide),
    H.2.2.2.2.1 (Json.obj [("action", Json.str "add_task"), ("text", Json.str "   ")])
      "   " rfl rfl (by decide),
    H.2.2.2.2.2 (Json.obj [("action", Json.str "toggle_task"), ("id", Json.str "zzz")])
      "zzz" rfl rfl (by decide)⟩

/-- Claim C1 (refuted at a concrete input): with channels 1 and 2 both
connected, a successful `add_task` frame from channel 1 mutates the task list
but pushes the `task_added` envelope only to the requesting channel 1 —
channel 2, although in `ws_channels`, receives nothing, so the envelope is
not sent to every connected channel as the spec (and the source's own
"Broadcast the update to all connected clients" comment) requires. -/
theorem ws_add_task_not_broadcast :
    ((websocket "uuid-1" (⟨[], {1, 2}⟩ : TodoState) 1 .Text
        (.json (Json.obj [("action", Json.str "add_task"),
          ("text", Json.str "buy milk")]))).2.map Prod.fst = [1]) ∧
    (2 ∈ (⟨[], {1, 2}⟩ : TodoState).ws_channels) ∧
    (2 ∉ ((websocket "uuid-1" (⟨[], {1, 2}⟩ : TodoState) 1 .Text
        (.json (Json.obj [("action", Json.str "add_task"),
          ("text", Json.str "buy milk")]))).2.map Prod.fst)) ∧
    ((websocket "uuid-1" (⟨[], {1, 2}⟩ : TodoState) 1 .Text
        (.json (Json.obj [("action", Json.str "add_task"),
          ("text", Json.str "buy milk")]))).1.tasks.length = 1) := by
  refine ⟨by decide, by decide, by decide, by decide⟩

/-- Claim C2 (refuted at a concrete input): a Close frame for channel 1 does
not remove channel 1 from the connection set — the handler's Close arm only
logs, so the state (including `ws_channels`) is returned unchanged. -/
theorem ws_close_does_not_remove :
    websocket "u" (⟨[], {1}⟩ : TodoState) 1 .Close .notUtf8 = (⟨[], {1}⟩, []) ∧
    1 ∈ (websocket "u" (⟨[], {1}⟩ : TodoState) 1 .Close .notUtf8).1.ws_channels :=
  ⟨rfl, by decide⟩

/-- Claim C2 as amended: on connect the channel id is added to the
active-connections set (performed by the host framework, modelled from the
spec), while Binary, Ping, Pong and Close frames cause no state change at all
in the handler and send nothing — in particular a Close frame does not remove
the channel id. -/
theorem ws_lifecycle_handler (fid : String) (s : TodoState) (ch : ℕ)
    (blob : BlobDecode) :
    (onConnect s ch).ws_channels = insert ch s.ws_channels ∧
    (onConnect s ch).tasks = s.tasks ∧
    websocket fid s ch .Binary blob = (s, []) ∧
    websocket fid s ch .Ping blob = (s, []) ∧
    websocket fid s ch .Pong blob = (s, []) ∧
    websocket fid s ch .Close blob = (s, []) :=
  ⟨rfl, rfl, rfl, rfl, rfl, rfl⟩

/-- Claim C3: whenever an exact `(method, path)` route is registered, the
resolver dispatches to that exact route's handler and never to a
method-scoped fallback or to a catch-all, whatever fallbacks and catch-all
are registered; in particular `(GET, /users)` resolves to the exact
`get_users` handler of the source's route table even though a GET fallback
(`handle_api_get_fallback`) is registered there. -/
theorem exact_route_always_wins :
    (∀ (rt : RouteTable) (m : Method) (path : String) (e : Method × String × String),
        rt.exacts.find? (fun r => r.1 == m && r.2.1 == path) = some e →
        resolve rt m path = .exact e.2.2 ∧
        ∀ g : String, resolve rt m path ≠ .fallback g ∧
          resolve rt m path ≠ .catchAll g ∧
          resolve rt m path ≠ .noRouteFound m path) ∧
    resolve todoRoutes .GET "/users" = .exact "get_users" ∧
    (Method.GET, "handle_api_get_fallback") ∈ todoRoutes.fallbacks := by
  refine ⟨?_, by decide, by decide⟩
  intro rt m path e hfind
  have hres : resolve rt m path = .exact e.2.2 := by
    simp [resolve, hfind]
  exact ⟨hres, fun g => by simp [hres]⟩

theorem exact_route_always_wins_witness :
    todoRoutes.exacts.find?
        (fun r => r.1 == Method.GET && r.2.1 == "/users") =
      some (Method.GET, "/users", "get_users") ∧
    resolve todoRoutes Method.GET "/users" = Resolved.exact "get_users" ∧
    resolve todoRoutes Method.GET "/users" ≠ Resolved.fallback "handle_api_get_fallback" :=
  ⟨by decide,
   (exact_route_always_wins.1 todoRoutes .GET "/users"
      (Method.GET, "/users", "get_users") (by decide)).1,
   ((exact_route_always_wins.1 todoRoutes .GET "/users"
      (Method.GET, "/users", "get_users") (by decide)).2 "handle_api_get_fallback").1⟩

/-- Claim C5: no exact PUT, DELETE or PATCH route is registered, so every
PUT, DELETE or PATCH request resolves (via the method-scoped fallback, the
only "catch-all" handling those methods have in the source) to a handler
whose response data is exactly the string `Catch-all: {method} {path}`,
containing the literal request method and path. -/
theorem put_delete_patch_catch_all (path : String) :
    (∀ p handler : String,
        (Method.PUT, p, handler) ∉ todoRoutes.exacts ∧
        (Method.DELETE, p, handler) ∉ todoRoutes.exacts ∧
        (Method.PATCH, p, handler) ∉ todoRoutes.exacts) ∧
    resolve todoRoutes .PUT path = .fallback "handle_put_fallback" ∧
    (handle_put_fallback (some path) (some "PUT")).data = "Catch-all: PUT " ++ path ∧
    resolve todoRoutes .DELETE path = .fallback "handle_delete_fallback" ∧
    (handle_delete_fallback (some path) (some "DELETE")).data =
      "Catch-all: DELETE " ++ path ∧
    resolve todoRoutes .PATCH path = .fallback "handle_patch_fallback" ∧
    (handle_patch_fallback (some path) (some "PATCH")).data =
      "Catch-all: PATCH " ++ path := by
  refine ⟨?_, rfl, rfl, rfl, rfl, rfl, rfl⟩
  intro p handler
  refine ⟨?_, ?_, ?_⟩ <;> simp [todoRoutes, todoExactRoutes]

theorem put_delete_patch_catch_all_witness :
    resolve todoRoutes Method.PUT "/anything" = Resolved.fallback "handle_put_fallback" ∧
    (handle_put_fallback (some "/anything") (some "PUT")).data =
      "Catch-all: PUT " ++ "/anything" ∧
    (Method.PUT, "/anything", "handle_put_fallback") ∉ todoRoutes.exacts :=
  ⟨(put_delete_patch_catch_all "/anything").2.1,
   (put_delete_patch_catch_all "/anything").2.2.1,
   ((put_delete_patch_catch_all "/anything").1 "/anything" "handle_put_fallback").1⟩
